import Mathlib

/-!
# Verification of the bookstore cart-to-order pipeline

Shallow embedding of the core commerce pipeline of the bookstore web
application:

* `app/services/book_service.py` — `decrease_book_stock` (the Catalog Stock
  Ledger);
* `app/services/order_service.py` — `create_order_from_cart` (the Order
  Creation Transaction) and `get_order_details` (Order Retrieval &
  Authorization);
* `app/cart/routes.py` — `_calculate_current_cart_total_and_items` (the Cart
  Valuation Engine);
* the model constructors `Order.__init__` (`app/models/order.py`) and
  `OrderItem.__init__` (`app/models/order_item.py`).

Python `Decimal` values are modelled as rationals (`ℚ`); `Decimal` arithmetic
on the magnitudes occurring here is exact, and `quantize(Decimal('0.01'),
ROUND_HALF_UP)` is modelled by `quantizeCents`.  The PostgreSQL database is
modelled as an explicit state (`DB`); a psycopg2 connection with
`autocommit = False` is modelled as a pair of database snapshots (`visible`,
the state any fresh reader observes, and `pending`, the state including the
transaction's own uncommitted writes) together with an event trace recording
the commit / rollback / close calls issued on the handle.  All transactional
code in the embedded functions runs with autocommit disabled, exactly as in
the source (`conn.autocommit = False` is set before any write); the
bookkeeping that resets the flag just before closing has no further
observable effect and is not modelled.

Session carts are Python dicts from raw string keys to quantities
(`Dict[str, int]`).  A cart entry is modelled by the result of the `int(...)`
conversions the code applies: `book_id = none` / `quantity = none` stand for
a `ValueError` from `int()`.  The raw string key is kept as an abstract `key`
tag: distinct dict keys are distinct tags, but distinct keys may well parse
to the same book id (Python's `int("5") == int("05")`), which is why a cart
can contain two lines for one book.
-/

/-- `Decimal.quantize(Decimal('0.01'), rounding=ROUND_HALF_UP)`: round to two
decimal places, ties away from zero. -/
def quantizeCents (q : ℚ) : ℚ :=
  if 0 ≤ q then ((⌊q * 100 + 1 / 2⌋ : ℤ) : ℚ) / 100
  else -(((⌊-q * 100 + 1 / 2⌋ : ℤ) : ℚ) / 100)

/-- Python truthiness of an optional integer: `None` and `0` are falsy.
The source guards `guest_email` with `if not user_id` rather than
`if user_id is None`. -/
def pyTruthyInt : Option Int → Bool
  | none => false
  | some n => n ≠ 0

/-- A row of the `books` table (the columns the core pipeline reads).
`price` is stored unquantized, as `Book.__init__` does
(`Decimal(str(price))`, no `.quantize`), so fractional-cent prices are
representable. -/
structure Book where
  book_id : Int
  title : String
  price : ℚ
  stock_quantity : Int
  deriving Repr, DecidableEq

/-- A row of the `orders` table. -/
structure OrderRow where
  order_id : Nat
  user_id : Option Int
  guest_email : Option String
  total_amount : ℚ
  status : String
  shipping_address_line1 : Option String
  shipping_address_line2 : Option String
  shipping_city : Option String
  shipping_state : Option String
  shipping_zip_code : Option String
  deriving Repr, DecidableEq

/-- A row of the `order_items` table. -/
structure OrderItemRow where
  order_item_id : Nat
  order_id : Nat
  book_id : Int
  quantity : Int
  unit_price_at_purchase : ℚ
  deriving Repr, DecidableEq

/-- The database state observable through a connection.  The `next_*`
counters model the `RETURNING order_id` / `RETURNING order_item_id`
sequences. -/
structure DB where
  books : List Book
  orders : List OrderRow
  order_items : List OrderItemRow
  next_order_id : Nat
  next_order_item_id : Nat
  deriving Repr, DecidableEq

/-- `SELECT ... FROM books WHERE book_id = %s` (first matching row). -/
def DB.findBook (db : DB) (book_id : Int) : Option Book :=
  db.books.find? (fun b => b.book_id = book_id)

/-- `UPDATE books SET stock_quantity = %s WHERE book_id = %s` (updates every
matching row, as the SQL does). -/
def DB.setStock (db : DB) (book_id : Int) (s : Int) : DB :=
  { db with books :=
      db.books.map fun b =>
        if b.book_id = book_id then { b with stock_quantity := s } else b }

/-- `SELECT ... FROM orders WHERE order_id = %s` (first matching row). -/
def DB.findOrder (db : DB) (order_id : Nat) : Option OrderRow :=
  db.orders.find? (fun o => o.order_id = order_id)

/-- The application's error taxonomy (`app/services/exceptions.py`),
restricted to the constructors the core pipeline raises. -/
inductive AppError where
  | validation (msg : String)
  | notFound (resource : String) (id : Int)
  | orderProcessing (msg : String)
  | databaseError (msg : String)
  | authorization (msg : String)
  deriving Repr, DecidableEq

def AppError.isValidation : AppError → Bool
  | .validation _ => true
  | _ => false

def AppError.isOrderProcessing : AppError → Bool
  | .orderProcessing _ => true
  | _ => false

def AppError.isNotFound : AppError → Bool
  | .notFound _ _ => true
  | _ => false

def AppError.isAuthorization : AppError → Bool
  | .authorization _ => true
  | _ => false

/-- The statements a function may issue on a database connection; used to
state the frame conditions of the Ledger (which statements it does and does
not issue on a caller-supplied handle). -/
inductive DbEvent where
  | lockRead (book_id : Int)
  | updateStock (book_id : Int) (newStock : Int)
  | insertOrder (order_id : Nat)
  | insertOrderItem (order_item_id : Nat)
  | commit
  | rollback
  | closeConn
  deriving Repr, DecidableEq

/-- A psycopg2 connection with `autocommit = False`: `visible` is what a
fresh reader (another connection) observes, `pending` additionally contains
this transaction's own uncommitted writes. -/
structure Conn where
  visible : DB
  pending : DB
  events : List DbEvent
  deriving Repr, DecidableEq

/-- `get_db_connection()` followed by `autocommit = False`. -/
def Conn.fresh (db : DB) : Conn := ⟨db, db, []⟩

/-- `conn.commit()`: publish the pending writes. -/
def Conn.commit (c : Conn) : Conn :=
  ⟨c.pending, c.pending, c.events ++ [.commit]⟩

/-- `conn.rollback()`: discard the pending writes. -/
def Conn.rollbackConn (c : Conn) : Conn :=
  ⟨c.visible, c.visible, c.events ++ [.rollback]⟩

/-- `conn.close()`: an open transaction is implicitly rolled back by the
server; uncommitted writes never become visible. -/
def Conn.closeConn (c : Conn) : Conn :=
  ⟨c.visible, c.visible, c.events ++ [.closeConn]⟩

/-! ## Catalog Stock Ledger — `decrease_book_stock`
(`app/services/book_service.py`, lines 213-356) -/

/-- The body of `decrease_book_stock` that runs on the chosen connection
(`book_service.py` lines 272-318): `SELECT stock_quantity ... FOR UPDATE`,
the not-found and insufficient-stock checks, then the `UPDATE`.  Reads see
the transaction's own pending writes.  The defensive `cur.rowcount == 0`
branch after the `UPDATE` cannot fire once the row was found under lock and
is unreachable in this model. -/
def decreaseStockBody (book_id quantity_to_decrease : Int) (c : Conn) :
    Conn × Except AppError Bool :=
  let c1 : Conn := { c with events := c.events ++ [.lockRead book_id] }
  match c1.pending.findBook book_id with
  | none =>
      (c1, .error (.notFound "Book" book_id))
  | some book =>
      let current_stock := book.stock_quantity
      if quantity_to_decrease > current_stock then
        (c1, .error (.validation "Not enough stock: insufficient stock for requested decrease."))
      else
        let new_stock_quantity := current_stock - quantity_to_decrease
        let c2 : Conn :=
          { c1 with
            pending := c1.pending.setStock book_id new_stock_quantity,
            events := c1.events ++ [.updateStock book_id new_stock_quantity] }
        (c2, .ok true)

/-- `decrease_book_stock(book_id, quantity, db_conn=conn)` with an externally
supplied connection (`manage_conn_locally = False`): the positivity check
precedes any use of the connection; the body runs on the caller's handle and
the error handlers neither commit, roll back nor close it. -/
def decrease_book_stock_on (book_id quantity_to_decrease : Int) (c : Conn) :
    Conn × Except AppError Bool :=
  if quantity_to_decrease ≤ 0 then
    (c, .error (.validation "Quantity to decrease must be a positive integer."))
  else
    decreaseStockBody book_id quantity_to_decrease c

/-- `decrease_book_stock(book_id, quantity)` with no `db_conn`
(`manage_conn_locally = True`): the positivity check fires before a
connection is even opened; otherwise a fresh connection is opened with
`autocommit = False`, the body runs, and the wrapper commits on success,
rolls back on any exception, and closes the connection in the `finally`
block.  Returns the database state a fresh reader observes afterwards, the
statement trace of the connection (empty when none was opened), and the
result. -/
def decrease_book_stock_local (book_id quantity_to_decrease : Int) (db : DB) :
    DB × List DbEvent × Except AppError Bool :=
  if quantity_to_decrease ≤ 0 then
    (db, [], .error (.validation "Quantity to decrease must be a positive integer."))
  else
    match decreaseStockBody book_id quantity_to_decrease (Conn.fresh db) with
    | (c, .ok r) =>
        let cf := c.commit.closeConn
        (cf.visible, cf.events, .ok r)
    | (c, .error e) =>
        let cf := c.rollbackConn.closeConn
        (cf.visible, cf.events, .error e)

/-! ## Order aggregate — `app/models/order.py`, `app/models/order_item.py` -/

/-- The `OrderItem` model.  `OrderItem.__init__` keeps `quantity` and
`unit_price_at_purchase` unchanged for the integer / `Decimal` inputs the
pipeline passes (`int(quantity)` and `Decimal(str(price))` are the identity
there); the fallback branches for `None` / malformed inputs are unreachable
from the embedded call sites. -/
structure OrderItem where
  order_item_id : Nat
  order_id : Nat
  book_id : Int
  quantity : Int
  unit_price_at_purchase : ℚ
  deriving Repr, DecidableEq

/-- The `Order` aggregate.  The datetime fields (`order_date`,
`updated_at`) are not modelled; no claim mentions them. -/
structure Order where
  order_id : Nat
  user_id : Option Int
  guest_email : Option String
  total_amount : ℚ
  status : String
  shipping_address_line1 : Option String
  shipping_address_line2 : Option String
  shipping_city : Option String
  shipping_state : Option String
  shipping_zip_code : Option String
  items : List OrderItem
  deriving Repr, DecidableEq

/-- `Order.__init__` (`app/models/order.py` lines 39-94): nulls
`guest_email` whenever `user_id` is truthy (`guest_email if not user_id else
None`), quantizes `total_amount` to cents (half-up), and starts with an
empty `items` list.  The `InvalidOperation` fallback to `0.00` is
unreachable for the exact rational inputs of this embedding. -/
def Order.init (user_id : Option Int) (total_amount : ℚ) (status : String)
    (order_id : Nat)
    (shipping_address_line1 shipping_address_line2 shipping_city
     shipping_state shipping_zip_code : Option String)
    (guest_email : Option String) : Order :=
  { order_id := order_id
    user_id := user_id
    guest_email := if pyTruthyInt user_id then none else guest_email
    total_amount := quantizeCents total_amount
    status := status
    shipping_address_line1 := shipping_address_line1
    shipping_address_line2 := shipping_address_line2
    shipping_city := shipping_city
    shipping_state := shipping_state
    shipping_zip_code := shipping_zip_code
    items := [] }

/-- `Order.from_row` (`app/models/order.py` lines 96-128): rebuild the
aggregate from an `orders` row through `Order.__init__`. -/
def Order.fromRow (row : OrderRow) : Order :=
  Order.init row.user_id row.total_amount row.status row.order_id
    row.shipping_address_line1 row.shipping_address_line2 row.shipping_city
    row.shipping_state row.shipping_zip_code row.guest_email

/-! ## Order Creation Transaction — `create_order_from_cart`
(`app/services/order_service.py`, lines 17-218) -/

/-- One entry of the session cart dict after the `int()` conversions the
service applies (`none` = the conversion raised `ValueError`).  `key` stands
for the raw string dict key: distinct keys may parse to the same book id. -/
structure CartEntry where
  key : Nat
  book_id : Option Int
  quantity : Option Int
  deriving Repr, DecidableEq

/-- The `shipping_details` dict passed to `create_order_from_cart`
(`none` = key absent). -/
structure ShippingDetails where
  shipping_address_line1 : Option String
  shipping_address_line2 : Option String
  shipping_city : Option String
  shipping_state : Option String
  shipping_zip_code : Option String
  deriving Repr, DecidableEq

/-- Required shipping fields check (`order_service.py` lines 54-64):
a field is missing when `shipping_details.get(field_key, "").strip()` is
falsy, i.e. absent or whitespace-only. -/
def blankField (s : Option String) : Bool :=
  (s.getD "").trim = ""

/-- First missing required shipping field, in the order the source checks
them. -/
def firstMissingShippingField (sd : ShippingDetails) : Option String :=
  if blankField sd.shipping_address_line1 then some "shipping_address_line1"
  else if blankField sd.shipping_city then some "shipping_city"
  else if blankField sd.shipping_state then some "shipping_state"
  else if blankField sd.shipping_zip_code then some "shipping_zip_code"
  else none

/-- One entry of `order_items_to_process_for_db`
(`order_service.py` lines 94-97). -/
structure PendingItem where
  book_id : Int
  quantity : Int
  unit_price_at_purchase : ℚ
  book_title : String
  deriving Repr, DecidableEq

/-- Pre-validation pass (`order_service.py` lines 73-104): for each cart
entry, the `int()` conversions (a `ValueError` becomes `Validation`), the
positivity check (also via `ValueError`), `get_book_by_id` (propagating
`NotFound`), the live-stock check (`OrderProcessing`), and accumulation of
the pending item and of the exact unrounded total. -/
def prevalidateItems (db : DB) :
    List CartEntry → List PendingItem → ℚ → Except AppError (List PendingItem × ℚ)
  | [], acc, total => .ok (acc, total)
  | e :: rest, acc, total =>
    match e.book_id, e.quantity with
    | some bid, some qty =>
      if qty ≤ 0 then
        .error (.validation "Invalid data for book ID or quantity in your cart.")
      else
        match db.findBook bid with
        | none => .error (.notFound "Book" bid)
        | some book =>
          if qty > book.stock_quantity then
            .error (.orderProcessing "Not enough stock. Please update your cart.")
          else
            prevalidateItems db rest
              (acc ++ [⟨bid, qty, book.price, book.title⟩])
              (total + book.price * (qty : ℚ))
    | _, _ => .error (.validation "Invalid data for book ID or quantity in your cart.")

/-- `INSERT INTO orders ... RETURNING order_id` on the transaction's
connection (`order_service.py` lines 130-152). -/
def insertOrderRow (c : Conn) (row : OrderRow) : Conn :=
  { c with
    pending := { c.pending with
                 orders := c.pending.orders ++ [row],
                 next_order_id := c.pending.next_order_id + 1 },
    events := c.events ++ [.insertOrder row.order_id] }

/-- The per-item transactional loop (`order_service.py` lines 161-174):
for each pending item, the Ledger's locked decrement on the shared
connection (`decrease_book_stock(..., db_conn=conn)`), then
`INSERT INTO order_items ... RETURNING order_item_id` and construction of
the `OrderItem` model.  Any exception aborts the loop and propagates. -/
def processItems (new_order_id : Nat) :
    List PendingItem → Conn → List OrderItem → Conn × Except AppError (List OrderItem)
  | [], c, acc => (c, .ok acc)
  | it :: rest, c, acc =>
    match decrease_book_stock_on it.book_id it.quantity c with
    | (c1, .error e) => (c1, .error e)
    | (c1, .ok _) =>
      let oiid := c1.pending.next_order_item_id
      let rowItem : OrderItemRow :=
        ⟨oiid, new_order_id, it.book_id, it.quantity, it.unit_price_at_purchase⟩
      let c2 : Conn :=
        { c1 with
          pending := { c1.pending with
                       order_items := c1.pending.order_items ++ [rowItem],
                       next_order_item_id := oiid + 1 },
          events := c1.events ++ [.insertOrderItem oiid] }
      processItems new_order_id rest c2
        (acc ++ [⟨oiid, new_order_id, it.book_id, it.quantity, it.unit_price_at_purchase⟩])

/-- `create_order_from_cart` (`order_service.py` lines 17-218).

Returns the database state a fresh reader observes after the call, the
statement trace of the transaction's connection (empty when the call failed
before a connection was opened), and the created `Order` or the raised
error.  Business errors (`Validation`, `NotFound`, `OrderProcessing`,
`Database`) are re-raised unchanged after `conn.rollback()`; the `finally`
block closes the connection in every case.  The `DatabaseError` branches
for missing `RETURNING` rows and the generic `except Exception` wrapper are
unreachable in this model. -/
def create_order_from_cart (db : DB) (user_id : Option Int)
    (cart_items_session : List CartEntry) (shipping : ShippingDetails)
    (guest_email_for_order : Option String) :
    DB × List DbEvent × Except AppError Order :=
  if cart_items_session.isEmpty then
    (db, [], .error (.validation "Cannot place an order: your shopping cart is currently empty."))
  else
    match firstMissingShippingField shipping with
    | some fld => (db, [], .error (.validation ("The shipping field " ++ fld ++ " is required.")))
    | none =>
      match prevalidateItems db cart_items_session [] 0 with
      | .error e => (db, [], .error e)
      | .ok (order_items_to_process, total_raw) =>
        if order_items_to_process.isEmpty then
          (db, [], .error (.validation "No valid items to order after validation."))
        else
          let calculated_total_amount := quantizeCents total_raw
          let c0 := Conn.fresh db
          let new_order_id := c0.pending.next_order_id
          let row : OrderRow :=
            { order_id := new_order_id
              user_id := user_id
              guest_email := if pyTruthyInt user_id then none else guest_email_for_order
              total_amount := calculated_total_amount
              status := "Pending Payment"
              shipping_address_line1 := shipping.shipping_address_line1
              shipping_address_line2 := shipping.shipping_address_line2
              shipping_city := shipping.shipping_city
              shipping_state := shipping.shipping_state
              shipping_zip_code := shipping.shipping_zip_code }
          let c1 := insertOrderRow c0 row
          match processItems new_order_id order_items_to_process c1 [] with
          | (c2, .error e) =>
              let cf := c2.rollbackConn.closeConn
              (cf.visible, cf.events, .error e)
          | (c2, .ok created_items) =>
              let cf := c2.commit.closeConn
              let final_order :=
                { Order.init user_id calculated_total_amount "Pending Payment"
                    new_order_id shipping.shipping_address_line1
                    shipping.shipping_address_line2 shipping.shipping_city
                    shipping.shipping_state shipping.shipping_zip_code
                    (if pyTruthyInt user_id then none else guest_email_for_order)
                  with items := created_items }
              (cf.visible, cf.events, .ok final_order)

/-! ## Order Retrieval & Authorization — `get_order_details`
(`app/services/order_service.py`, lines 274-370) -/

/-- Stable insertion into a list sorted by `order_item_id`. -/
def insertByItemId (r : OrderItemRow) : List OrderItemRow → List OrderItemRow
  | [] => [r]
  | x :: xs =>
    if r.order_item_id ≤ x.order_item_id then r :: x :: xs
    else x :: insertByItemId r xs

/-- `ORDER BY oi.order_item_id ASC` of the items query. -/
def sortByItemId : List OrderItemRow → List OrderItemRow
  | [] => []
  | x :: xs => insertByItemId x (sortByItemId xs)

/-- `get_order_details(order_id, user_id_for_auth, guest_email_for_auth)`
(`order_service.py` lines 274-370): fetch the order row (raising `NotFound`
when absent, before any authorization check), then authorize — a requester
with a `user_id` must equal the row's `user_id`; otherwise a requester with
a `guest_email` needs the row's `user_id` to be NULL and
`(row.guest_email or '').strip().lower()` to equal the requester email's
`.strip().lower()`; no identity at all raises `Authorization` — and finally
rebuild the aggregate with its items ordered by `order_item_id` ascending.
The denormalized `book_title` / `book_image_url` join columns are display
conveniences and are not modelled. -/
def get_order_details (db : DB) (order_id : Nat)
    (user_id_for_auth : Option Int) (guest_email_for_auth : Option String) :
    Except AppError Order :=
  match db.findOrder order_id with
  | none => .error (.notFound "Order" (order_id : Int))
  | some row =>
    let authFailure : Option AppError :=
      match user_id_for_auth with
      | some uid =>
        if row.user_id ≠ some uid then
          some (.authorization "You are not authorized to view this order's details.")
        else none
      | none =>
        match guest_email_for_auth with
        | some ge =>
          if row.user_id ≠ none ∨
             (row.guest_email.getD "").trim.toLower ≠ ge.trim.toLower then
            some (.authorization "Cannot view this order with the provided guest email.")
          else none
        | none => some (.authorization "Authentication details required to view this order.")
    match authFailure with
    | some e => .error e
    | none =>
      let order := Order.fromRow row
      let item_rows := sortByItemId (db.order_items.filter (fun r => r.order_id = order_id))
      let items := item_rows.map fun r =>
        (⟨r.order_item_id, r.order_id, r.book_id, r.quantity,
          r.unit_price_at_purchase⟩ : OrderItem)
      .ok { order with items := items }

/-! ## Cart Valuation Engine — `_calculate_current_cart_total_and_items`
(`app/cart/routes.py`, lines 42-135) -/

/-- One element of the `cart_items_detailed` list built for display
(`cart/routes.py` lines 111-119).  The `title.title()` display casing and
`image_url` are presentation details and are not modelled. -/
structure CartItemView where
  book_id : Int
  quantity : Int
  unit_price : ℚ
  total_price : ℚ
  stock_quantity : Int
  deriving Repr, DecidableEq

/-- The per-entry loop of `_calculate_current_cart_total_and_items`
(`cart/routes.py` lines 77-129): skip entries whose raw key was already
processed (`processed_book_ids`, which never fires for a genuine dict but
is part of the code), skip entries whose `int()` conversions fail
(`ValueError`), whose quantity is ≤ 0, or whose book does not exist
(`NotFoundError` is swallowed); append the display view with the per-line
rounded `total_price` and accumulate the exact unrounded `item_total` into
the grand total.  The `Decimal` coercion fallback for a non-`Decimal`
`book.price` is unreachable here (prices are rationals). -/
def valueCartLoop (db : DB) :
    List CartEntry → List Nat → List CartItemView → ℚ → List CartItemView × ℚ
  | [], _, acc, total => (acc, total)
  | e :: rest, seen, acc, total =>
    if e.key ∈ seen then valueCartLoop db rest seen acc total
    else
      let seen' := seen ++ [e.key]
      match e.book_id, e.quantity with
      | some bid, some qty =>
        if qty ≤ 0 then valueCartLoop db rest seen' acc total
        else
          match db.findBook bid with
          | none => valueCartLoop db rest seen' acc total
          | some book =>
            let item_total := book.price * (qty : ℚ)
            let item_total_rounded := quantizeCents item_total
            valueCartLoop db rest seen'
              (acc ++ [⟨book.book_id, qty, book.price, item_total_rounded,
                        book.stock_quantity⟩])
              (total + item_total)
      | _, _ => valueCartLoop db rest seen' acc total

/-- `_calculate_current_cart_total_and_items(cart_session)`
(`cart/routes.py` lines 42-135): empty carts return `([], 0.00, True)`
immediately; otherwise the loop runs, the grand total is quantized once at
the end, and `is_empty` is true iff no valid line survived. -/
def calculate_current_cart_total_and_items (db : DB) (cart_session : List CartEntry) :
    List CartItemView × ℚ × Bool :=
  if cart_session.isEmpty then ([], 0, true)
  else
    let (cart_items_detailed, raw_total) := valueCartLoop db cart_session [] [] 0
    (cart_items_detailed, quantizeCents raw_total, cart_items_detailed.isEmpty)

/-! ## Derived definitions used in the statements -/

/-- The view a single cart entry contributes when it is valid (parses, has a
positive quantity, and its book exists); `none` when the valuation loop
skips it.  Characterizes the per-entry filtering of
`_calculate_current_cart_total_and_items`. -/
def entryView (db : DB) (e : CartEntry) : Option CartItemView :=
  match e.book_id, e.quantity with
  | some bid, some qty =>
    if qty ≤ 0 then none
    else
      match db.findBook bid with
      | none => none
      | some book =>
        some ⟨book.book_id, qty, book.price, quantizeCents (book.price * (qty : ℚ)),
              book.stock_quantity⟩
  | _, _ => none

/-- The sub-list of cart entries whose raw key has not occurred before
(the effect of the loop's `processed_book_ids` set). -/
def dedupKeys : List CartEntry → List Nat → List CartEntry
  | [], _ => []
  | e :: rest, seen =>
    if e.key ∈ seen then dedupKeys rest seen
    else e :: dedupKeys rest (seen ++ [e.key])

/-- A sequence of self-managed `decrease_book_stock` calls against one book,
run back to back (the row lock serializes concurrent callers, so any
concurrent schedule is equivalent to some such sequence).  Returns the
final database and, per call, the requested quantity paired with whether
the call succeeded. -/
def runDecreases (book_id : Int) : List Int → DB → DB × List (Int × Bool)
  | [], db => (db, [])
  | q :: qs, db =>
    let step := decrease_book_stock_local book_id q db
    let rest := runDecreases book_id qs step.1
    (rest.1, (q, step.2.2.isOk) :: rest.2)

/-- Total quantity of the successful decrements of a call log. -/
def sumSuccessful (l : List (Int × Bool)) : Int :=
  ((l.filter fun p => p.2).map fun p => p.1).sum

/-! ## Concrete data for witnesses and counterexamples -/

/-- Book 42 of the spec's concrete scenarios: price 12.50, stock 5. -/
def exBook : Book := ⟨42, "dune", 25 / 2, 5⟩

def exDB : DB := ⟨[exBook], [], [], 1, 1⟩

def exShipping : ShippingDetails :=
  ⟨some "1 Main St", none, some "Springfield", some "IL", some "62701"⟩

/-- Cart `{book_42: 2}`. -/
def okCart : List CartEntry := [⟨0, some 42, some 2⟩]

/-- Cart `{book_42: 10}` (spec scenario: requested 10 > stock 5). -/
def bigCart : List CartEntry := [⟨0, some 42, some 10⟩]

/-- Cart `{"42": 3, "042": 3}`: two distinct session keys that both parse to
book 42.  Each line passes the pre-validation check (3 ≤ 5) but the second
locked decrement during the transactional phase finds only 2 left. -/
def dupCart : List CartEntry := [⟨0, some 42, some 3⟩, ⟨1, some 42, some 3⟩]

/-- Two books priced 10.005 (fractional-cent precision). -/
def fracDB : DB :=
  ⟨[⟨1, "a", 2001 / 200, 5⟩, ⟨2, "b", 2001 / 200, 5⟩], [], [], 1, 1⟩

def fracCart : List CartEntry := [⟨0, some 1, some 1⟩, ⟨1, some 2, some 1⟩]

/-- A persisted guest order (no owning user, guest email `a@b.com`). -/
def guestOrderRow : OrderRow :=
  ⟨7, none, some "a@b.com", 10, "Pending Payment", none, none, none, none, none⟩

def orderDB : DB := ⟨[], [guestOrderRow], [⟨1, 7, 42, 2, 5⟩], 8, 2⟩

/-! ## Helper lemmas -/

theorem quantizeCents_div100 (n : ℤ) : quantizeCents ((n : ℚ) / 100) = (n : ℚ) / 100 := by
  have h100 : ((n : ℚ) / 100) * 100 = (n : ℚ) := by
    field_simp
  have h12 : (⌊(1 / 2 : ℚ)⌋ : ℤ) = 0 := by
    norm_num [Int.floor_eq_zero_iff]
  unfold quantizeCents
  split
  case isTrue h =>
    rw [h100, Int.floor_int_add, h12]
    norm_num
  case isFalse h =>
    have hm2 : (-((n : ℚ) / 100)) * 100 = ((-n : ℤ) : ℚ) := by
      push_cast
      ring
    rw [hm2, Int.floor_int_add, h12]
    push_cast
    ring

theorem quantizeCents_idem (q : ℚ) : quantizeCents (quantizeCents q) = quantizeCents q := by
  have h : ∃ n : ℤ, quantizeCents q = (n : ℚ) / 100 := by
    unfold quantizeCents
    split
    · exact ⟨⌊q * 100 + 1 / 2⌋, rfl⟩
    · exact ⟨-⌊-q * 100 + 1 / 2⌋, by push_cast; ring⟩
  obtain ⟨n, hn⟩ := h
  rw [hn, quantizeCents_div100]

theorem quantizeCents_zero : quantizeCents 0 = 0 := by
  with_unfolding_all rfl

theorem find?_map_setStock (l : List Book) (b s : Int) :
    (l.map fun bk => if bk.book_id = b then { bk with stock_quantity := s } else bk).find?
        (fun bk => bk.book_id = b)
      = (l.find? fun bk => bk.book_id = b).map fun bk => { bk with stock_quantity := s } := by
  induction l with
  | nil => rfl
  | cons x xs ih =>
    by_cases hx : x.book_id = b
    · simp [List.find?, hx]
    · simp [List.find?, hx, ih]

theorem DB.findBook_setStock (db : DB) (b s : Int) :
    (db.setStock b s).findBook b
      = (db.findBook b).map fun bk => { bk with stock_quantity := s } := by
  unfold DB.setStock DB.findBook
  exact find?_map_setStock db.books b s

theorem decrease_on_visible (b q : Int) (c : Conn) :
    (decrease_book_stock_on b q c).1.visible = c.visible := by
  simp only [decrease_book_stock_on, decreaseStockBody]
  split
  · rfl
  · split <;> (first | rfl | split <;> rfl)

theorem decrease_on_events (b q : Int) (c : Conn) :
    ∃ new, (decrease_book_stock_on b q c).1.events = c.events ++ new ∧
      DbEvent.commit ∉ new ∧ DbEvent.rollback ∉ new ∧ DbEvent.closeConn ∉ new := by
  simp only [decrease_book_stock_on, decreaseStockBody]
  split
  · exact ⟨[], by simp⟩
  · split
    · exact ⟨[.lockRead b], by simp⟩
    · next book hbk =>
      split
      · exact ⟨[.lockRead b], by simp⟩
      · exact ⟨[.lockRead b, .updateStock b (book.stock_quantity - q)], by simp⟩

theorem decrease_on_ok (b q : Int) (c : Conn) (c' : Conn) (r : Bool)
    (h : decrease_book_stock_on b q c = (c', .ok r)) :
    ∃ bk, c.pending.findBook b = some bk ∧ 0 < q ∧ q ≤ bk.stock_quantity ∧
      c'.pending = c.pending.setStock b (bk.stock_quantity - q) := by
  simp only [decrease_book_stock_on, decreaseStockBody] at h
  split at h
  · exact absurd (congrArg (fun p => p.2) h) (by simp)
  · next hq =>
    split at h
    · exact absurd (congrArg (fun p => p.2) h) (by simp)
    · next bk hbk =>
      split at h
      · exact absurd (congrArg (fun p => p.2) h) (by simp)
      · next hle =>
        refine ⟨bk, hbk, by omega, by omega, ?_⟩
        have := congrArg (fun p => p.1.pending) h
        simpa using this.symm

theorem decrease_on_err (b q : Int) (c : Conn) (c' : Conn) (e : AppError)
    (h : decrease_book_stock_on b q c = (c', .error e)) :
    c'.pending = c.pending ∧ (e.isValidation = true ∨ e.isNotFound = true) := by
  simp only [decrease_book_stock_on, decreaseStockBody] at h
  split at h
  · obtain ⟨h1, h2⟩ := Prod.mk.injEq .. ▸ h
    refine ⟨by rw [← h1], ?_⟩
    cases h2
    exact Or.inl rfl
  · split at h
    · obtain ⟨h1, h2⟩ := Prod.mk.injEq .. ▸ h
      refine ⟨by rw [← h1], Or.inr ?_⟩
      cases h2
      rfl
    · split at h
      · obtain ⟨h1, h2⟩ := Prod.mk.injEq .. ▸ h
        refine ⟨by rw [← h1], Or.inl ?_⟩
        cases h2
        rfl
      · exact absurd (congrArg (fun p => p.2) h) (by simp)

theorem sumSuccessful_cons_true (q : Int) (l : List (Int × Bool)) :
    sumSuccessful ((q, true) :: l) = q + sumSuccessful l := by
  simp [sumSuccessful]

theorem sumSuccessful_cons_false (q : Int) (l : List (Int × Bool)) :
    sumSuccessful ((q, false) :: l) = sumSuccessful l := by
  simp [sumSuccessful]

theorem body_insufficient (b q : Int) (c : Conn) (bk : Book)
    (hf : c.pending.findBook b = some bk) (hgt : bk.stock_quantity < q) :
    decreaseStockBody b q c
      = ({ c with events := c.events ++ [.lockRead b] },
         .error (.validation "Not enough stock: insufficient stock for requested decrease.")) := by
  simp only [decreaseStockBody, hf]
  rw [if_pos (by omega)]

theorem body_ok (b q : Int) (c : Conn) (bk : Book)
    (hf : c.pending.findBook b = some bk) (hle : q ≤ bk.stock_quantity) :
    decreaseStockBody b q c
      = ({ c with
            pending := c.pending.setStock b (bk.stock_quantity - q)
            events := c.events ++ [.lockRead b, .updateStock b (bk.stock_quantity - q)] },
         .ok true) := by
  simp only [decreaseStockBody, hf]
  rw [if_neg (by omega)]
  simp

theorem decrease_local_nonpos (b q : Int) (db : DB) (hq : q ≤ 0) :
    decrease_book_stock_local b q db
      = (db, [], .error (.validation "Quantity to decrease must be a positive integer.")) := by
  unfold decrease_book_stock_local
  rw [if_pos hq]

theorem decrease_local_insufficient (b q : Int) (db : DB) (bk : Book)
    (hf : db.findBook b = some bk) (hq : 0 < q) (hgt : bk.stock_quantity < q) :
    decrease_book_stock_local b q db
      = (db, [.lockRead b, .rollback, .closeConn],
         .error (.validation "Not enough stock: insufficient stock for requested decrease.")) := by
  simp only [decrease_book_stock_local]
  rw [if_neg (by omega)]
  rw [body_insufficient b q (Conn.fresh db) bk hf hgt]
  simp [Conn.fresh, Conn.rollbackConn, Conn.closeConn]

theorem decrease_local_ok (b q : Int) (db : DB) (bk : Book)
    (hf : db.findBook b = some bk) (hq : 0 < q) (hle : q ≤ bk.stock_quantity) :
    decrease_book_stock_local b q db
      = (db.setStock b (bk.stock_quantity - q),
         [.lockRead b, .updateStock b (bk.stock_quantity - q), .commit, .closeConn],
         .ok true) := by
  simp only [decrease_book_stock_local]
  rw [if_neg (by omega)]
  rw [body_ok b q (Conn.fresh db) bk hf hle]
  simp [Conn.fresh, Conn.commit, Conn.closeConn]

theorem runDecreases_invariant (b : Int) :
    ∀ (qs : List Int) (db : DB) (bk : Book),
      db.findBook b = some bk → 0 ≤ bk.stock_quantity →
      ∃ bk', (runDecreases b qs db).1.findBook b = some bk' ∧
        bk'.stock_quantity = bk.stock_quantity - sumSuccessful (runDecreases b qs db).2 ∧
        0 ≤ bk'.stock_quantity ∧
        sumSuccessful (runDecreases b qs db).2 ≤ bk.stock_quantity := by
  intro qs
  induction qs with
  | nil =>
    intro db bk hf h0
    exact ⟨bk, hf, by simp [runDecreases, sumSuccessful], h0,
           by simp [runDecreases, sumSuccessful]; omega⟩
  | cons q rest ih =>
    intro db bk hf h0
    by_cases hq : q ≤ 0
    · have hstep := decrease_local_nonpos b q db hq
      simp only [runDecreases, hstep]
      obtain ⟨bk', h1, h2, h3, h4⟩ := ih db bk hf h0
      exact ⟨bk', h1, by simp [Except.isOk, Except.toBool, sumSuccessful_cons_false, h2], h3,
             by simp [Except.isOk, Except.toBool, sumSuccessful_cons_false]; omega⟩
    · by_cases hle : q ≤ bk.stock_quantity
      · have hstep := decrease_local_ok b q db bk hf (by omega) hle
        simp only [runDecreases, hstep]
        have hf1 : (db.setStock b (bk.stock_quantity - q)).findBook b
            = some { bk with stock_quantity := bk.stock_quantity - q } := by
          rw [DB.findBook_setStock, hf]
          rfl
        obtain ⟨bk', h1, h2, h3, h4⟩ := ih (db.setStock b (bk.stock_quantity - q))
          { bk with stock_quantity := bk.stock_quantity - q } hf1 (by simp; omega)
        simp only at h2 h4
        refine ⟨bk', h1, ?_, h3, ?_⟩
        · simp [Except.isOk, Except.toBool, sumSuccessful_cons_true]
          omega
        · simp [Except.isOk, Except.toBool, sumSuccessful_cons_true]
          omega
      · have hstep := decrease_local_insufficient b q db bk hf (by omega) (by omega)
        simp only [runDecreases, hstep]
        obtain ⟨bk', h1, h2, h3, h4⟩ := ih db bk hf h0
        exact ⟨bk', h1, by simp [Except.isOk, Except.toBool, sumSuccessful_cons_false, h2], h3,
               by simp [Except.isOk, Except.toBool, sumSuccessful_cons_false]; omega⟩

theorem body_visible (b q : Int) (c : Conn) :
    (decreaseStockBody b q c).1.visible = c.visible := by
  simp only [decreaseStockBody]
  split
  · rfl
  · split <;> rfl

/-- C2: for every sequence of decrease_stock calls against one book whose
stock starts non-negative, each call with a positive quantity either fails
with Validation when the requested quantity exceeds the current stock
(leaving stock unchanged) or writes current minus quantity; consequently
the final stock_quantity is never negative and the sum of all successful
decrements never exceeds the initial stock. -/
theorem decrease_stock_never_negative :
    (∀ (db : DB) (b q : Int) (bk : Book), db.findBook b = some bk → 0 < q →
       (bk.stock_quantity < q →
          (decrease_book_stock_local b q db).1 = db ∧
          (decrease_book_stock_local b q db).2.2
            = .error (.validation "Not enough stock: insufficient stock for requested decrease.")) ∧
       (q ≤ bk.stock_quantity →
          (decrease_book_stock_local b q db).1 = db.setStock b (bk.stock_quantity - q) ∧
          (decrease_book_stock_local b q db).2.2 = .ok true)) ∧
    (∀ (db : DB) (b : Int) (bk : Book) (qs : List Int),
       db.findBook b = some bk → 0 ≤ bk.stock_quantity →
       ∃ bk', (runDecreases b qs db).1.findBook b = some bk' ∧
         bk'.stock_quantity = bk.stock_quantity - sumSuccessful (runDecreases b qs db).2 ∧
         0 ≤ bk'.stock_quantity ∧
         sumSuccessful (runDecreases b qs db).2 ≤ bk.stock_quantity) := by
  constructor
  · intro db b q bk hf hq
    constructor
    · intro hgt
      rw [decrease_local_insufficient b q db bk hf hq hgt]
      exact ⟨rfl, rfl⟩
    · intro hle
      rw [decrease_local_ok b q db bk hf hq hle]
      exact ⟨rfl, rfl⟩
  · intro db b bk qs hf h0
    exact runDecreases_invariant b qs db bk hf h0

theorem decrease_stock_never_negative_witness :
    ((decrease_book_stock_local 42 10 exDB).1 = exDB ∧
     (decrease_book_stock_local 42 10 exDB).2.2
       = .error (.validation "Not enough stock: insufficient stock for requested decrease.")) ∧
    (∃ bk', (runDecreases 42 [3, 10, 1] exDB).1.findBook 42 = some bk' ∧
       bk'.stock_quantity
         = exBook.stock_quantity - sumSuccessful (runDecreases 42 [3, 10, 1] exDB).2 ∧
       0 ≤ bk'.stock_quantity ∧
       sumSuccessful (runDecreases 42 [3, 10, 1] exDB).2 ≤ exBook.stock_quantity) := by
  have hf : exDB.findBook 42 = some exBook := by with_unfolding_all decide
  constructor
  · exact (decrease_stock_never_negative.1 exDB 42 10 exBook hf (by decide)).1
      (by with_unfolding_all decide)
  · exact decrease_stock_never_negative.2 exDB 42 exBook [3, 10, 1] hf
      (by with_unfolding_all decide)

/-- C9: with an externally supplied transaction handle, decrease_stock
performs its locked read-check-decrement on that handle without ever
committing, rolling back, or closing it (the caller's view of committed
state is untouched; on success only the pending stock write is added, on
failure the pending state is untouched); with no handle it manages its own
connection, committing on success, rolling back on any exception, and
always releasing the connection. -/
theorem decrease_stock_conn_discipline :
    (∀ (b q : Int) (c : Conn),
       (decrease_book_stock_on b q c).1.visible = c.visible ∧
       (∃ new, (decrease_book_stock_on b q c).1.events = c.events ++ new ∧
          DbEvent.commit ∉ new ∧ DbEvent.rollback ∉ new ∧ DbEvent.closeConn ∉ new) ∧
       (∀ c' r, decrease_book_stock_on b q c = (c', .ok r) →
          ∃ bk, c.pending.findBook b = some bk ∧
            c'.pending = c.pending.setStock b (bk.stock_quantity - q)) ∧
       (∀ c' e, decrease_book_stock_on b q c = (c', .error e) → c'.pending = c.pending)) ∧
    (∀ (b q : Int) (db : DB), 0 < q →
       DbEvent.closeConn ∈ (decrease_book_stock_local b q db).2.1 ∧
       (∀ r, (decrease_book_stock_local b q db).2.2 = .ok r →
          DbEvent.commit ∈ (decrease_book_stock_local b q db).2.1) ∧
       (∀ e, (decrease_book_stock_local b q db).2.2 = .error e →
          DbEvent.rollback ∈ (decrease_book_stock_local b q db).2.1 ∧
          (decrease_book_stock_local b q db).1 = db)) := by
  constructor
  · intro b q c
    refine ⟨decrease_on_visible b q c, decrease_on_events b q c, ?_, ?_⟩
    · intro c' r h
      obtain ⟨bk, h1, _, _, h4⟩ := decrease_on_ok b q c c' r h
      exact ⟨bk, h1, h4⟩
    · intro c' e h
      exact (decrease_on_err b q c c' e h).1
  · intro b q db hq
    simp only [decrease_book_stock_local]
    rw [if_neg (by omega)]
    have hv := body_visible b q (Conn.fresh db)
    rcases hbody : decreaseStockBody b q (Conn.fresh db) with ⟨c, r⟩
    rw [hbody] at hv
    cases r with
    | ok x =>
      refine ⟨by simp [Conn.commit, Conn.closeConn], ?_, ?_⟩
      · intro r _
        simp [Conn.commit, Conn.closeConn]
      · intro e he
        simp at he
    | error e =>
      refine ⟨by simp [Conn.rollbackConn, Conn.closeConn], ?_, ?_⟩
      · intro r hr
        simp at hr
      · intro e2 _
        refine ⟨by simp [Conn.rollbackConn, Conn.closeConn], ?_⟩
        simp [Conn.rollbackConn, Conn.closeConn]
        exact hv

theorem decrease_stock_conn_discipline_witness :
    ((decrease_book_stock_on 42 2 (Conn.fresh exDB)).1.visible = (Conn.fresh exDB).visible) ∧
    (∃ bk, (Conn.fresh exDB).pending.findBook 42 = some bk ∧
       (decrease_book_stock_on 42 2 (Conn.fresh exDB)).1.pending
         = (Conn.fresh exDB).pending.setStock 42 (bk.stock_quantity - 2)) ∧
    DbEvent.closeConn ∈ (decrease_book_stock_local 42 2 exDB).2.1 ∧
    DbEvent.commit ∈ (decrease_book_stock_local 42 2 exDB).2.1 ∧
    DbEvent.rollback ∈ (decrease_book_stock_local 42 10 exDB).2.1 ∧
    (decrease_book_stock_local 42 10 exDB).1 = exDB := by
  refine ⟨(decrease_stock_conn_discipline.1 42 2 (Conn.fresh exDB)).1,
          (decrease_stock_conn_discipline.1 42 2 (Conn.fresh exDB)).2.2.1
            (decrease_book_stock_on 42 2 (Conn.fresh exDB)).1 true
            (by with_unfolding_all rfl),
          (decrease_stock_conn_discipline.2 42 2 exDB (by decide)).1,
          (decrease_stock_conn_discipline.2 42 2 exDB (by decide)).2.1 true
            (by with_unfolding_all rfl),
          (decrease_stock_conn_discipline.2 42 10 exDB (by decide)).2.2
            (.validation "Not enough stock: insufficient stock for requested decrease.")
            (by with_unfolding_all rfl)⟩

theorem entryView_total (db : DB) (e : CartEntry) (v : CartItemView)
    (h : entryView db e = some v) :
    v.total_price = quantizeCents (v.unit_price * (v.quantity : ℚ)) := by
  unfold entryView at h
  split at h
  · split at h
    · exact absurd h (by simp)
    · split at h
      · exact absurd h (by simp)
      · cases h
        rfl
  · exact absurd h (by simp)

theorem valueCartLoop_spec (db : DB) :
    ∀ (es : List CartEntry) (seen : List Nat) (acc : List CartItemView) (t : ℚ),
      valueCartLoop db es seen acc t
        = (acc ++ (dedupKeys es seen).filterMap (entryView db),
           t + (((dedupKeys es seen).filterMap (entryView db)).map
                  fun it => it.unit_price * (it.quantity : ℚ)).sum) := by
  intro es
  induction es with
  | nil =>
    intro seen acc t
    simp [valueCartLoop, dedupKeys]
  | cons e rest ih =>
    intro seen acc t
    by_cases hk : e.key ∈ seen
    · simp only [valueCartLoop, dedupKeys, if_pos hk]
      exact ih seen acc t
    · simp only [valueCartLoop, dedupKeys, if_neg hk]
      rcases hb : e.book_id with _ | bid
      · simp only [entryView, hb, List.filterMap_cons]
        exact ih (seen ++ [e.key]) acc t
      · rcases hq : e.quantity with _ | qty
        · simp only [entryView, hb, hq, List.filterMap_cons]
          exact ih (seen ++ [e.key]) acc t
        · by_cases hqt : qty ≤ 0
          · simp only [entryView, hb, hq, if_pos hqt, List.filterMap_cons]
            exact ih (seen ++ [e.key]) acc t
          · rcases hf : db.findBook bid with _ | book
            · simp only [entryView, hb, hq, if_neg hqt, hf, List.filterMap_cons]
              exact ih (seen ++ [e.key]) acc t
            · simp only [entryView, hb, hq, if_neg hqt, hf, List.filterMap_cons]
              rw [ih]
              simp only [List.append_assoc, List.singleton_append, List.map_cons,
                         List.sum_cons]
              congr 1
              ring

/-- C5: cart valuation computes each line's displayed total_price as
round(price × quantity, 2, half-up), but the grand total is the single
half-up rounding of the exact sum of the unrounded per-line products,
applied once at the end — never a sum of per-line rounded values. -/
theorem cart_total_rounded_once (db : DB) (cart : List CartEntry) :
    (calculate_current_cart_total_and_items db cart).2.1
      = quantizeCents
          (((calculate_current_cart_total_and_items db cart).1.map
              fun it => it.unit_price * (it.quantity : ℚ)).sum) ∧
    ∀ it ∈ (calculate_current_cart_total_and_items db cart).1,
      it.total_price = quantizeCents (it.unit_price * (it.quantity : ℚ)) := by
  unfold calculate_current_cart_total_and_items
  split
  case isTrue h =>
    constructor
    · simp [quantizeCents_zero]
    · simp
  case isFalse h =>
    rw [valueCartLoop_spec db cart [] [] 0]
    constructor
    · simp
    · intro it hit
      simp only [List.nil_append] at hit
      obtain ⟨e, _, hev⟩ := List.mem_filterMap.mp hit
      exact entryView_total db e it hev

set_option maxRecDepth 8000 in
theorem cart_total_rounded_once_witness :
    (calculate_current_cart_total_and_items fracDB fracCart).2.1
      = quantizeCents
          (((calculate_current_cart_total_and_items fracDB fracCart).1.map
              fun it => it.unit_price * (it.quantity : ℚ)).sum) ∧
    (⟨1, 1, 2001 / 200, 1001 / 100, 5⟩ : CartItemView).total_price
      = quantizeCents ((⟨1, 1, 2001 / 200, 1001 / 100, 5⟩ : CartItemView).unit_price
          * (((⟨1, 1, 2001 / 200, 1001 / 100, 5⟩ : CartItemView).quantity : Int) : ℚ)) :=
  ⟨(cart_total_rounded_once fracDB fracCart).1,
   (cart_total_rounded_once fracDB fracCart).2 ⟨1, 1, 2001 / 200, 1001 / 100, 5⟩
     (by with_unfolding_all decide)⟩

/-- C8: every cart_map entry whose quantity is ≤ 0 or malformed, or whose
book cannot be found, is skipped by cart valuation without any error being
raised (the function is total and its returned lines are exactly the
surviving valid entries after key-deduplication), and the is_empty flag is
true iff no valid line survived this filtering. -/
theorem cart_skips_invalid_and_empty_flag (db : DB) (cart : List CartEntry) :
    (calculate_current_cart_total_and_items db cart).1
      = (dedupKeys cart []).filterMap (entryView db) ∧
    ((calculate_current_cart_total_and_items db cart).2.2 = true
      ↔ (calculate_current_cart_total_and_items db cart).1 = []) := by
  unfold calculate_current_cart_total_and_items
  split
  case isTrue h =>
    have hc : cart = [] := by simpa using h
    subst hc
    simp [dedupKeys]
  case isFalse h =>
    rw [valueCartLoop_spec db cart [] [] 0]
    simp [List.isEmpty_iff]

theorem cart_skips_invalid_and_empty_flag_witness :
    (calculate_current_cart_total_and_items fracDB
        [⟨0, some 1, some 1⟩, ⟨1, none, some 2⟩, ⟨2, some 2, some 0⟩, ⟨3, some 99, some 1⟩]).1
      = (dedupKeys
           [⟨0, some 1, some 1⟩, ⟨1, none, some 2⟩, ⟨2, some 2, some 0⟩, ⟨3, some 99, some 1⟩]
           []).filterMap (entryView fracDB) ∧
    ((calculate_current_cart_total_and_items fracDB
        [⟨0, some 1, some 1⟩, ⟨1, none, some 2⟩, ⟨2, some 2, some 0⟩, ⟨3, some 99, some 1⟩]).2.2 = true
      ↔ (calculate_current_cart_total_and_items fracDB
           [⟨0, some 1, some 1⟩, ⟨1, none, some 2⟩, ⟨2, some 2, some 0⟩, ⟨3, some 99, some 1⟩]).1 = []) :=
  cart_skips_invalid_and_empty_flag fracDB
    [⟨0, some 1, some 1⟩, ⟨1, none, some 2⟩, ⟨2, some 2, some 0⟩, ⟨3, some 99, some 1⟩]

/-- C10: there exists a cart (here: two lines with fractional-cent price
10.005 each) for which the returned grand total (20.01, the single half-up
rounding of the exact sum 20.01) differs from the sum of the rounded
total_price values shown on the lines (10.01 + 10.01 = 20.02). -/
theorem grand_total_ne_sum_of_rounded_lines :
    (calculate_current_cart_total_and_items fracDB fracCart).2.1
      ≠ ((calculate_current_cart_total_and_items fracDB fracCart).1.map
           fun it => it.total_price).sum := by
  with_unfolding_all decide

theorem processItems_visible (oid : Nat) :
    ∀ (its : List PendingItem) (c : Conn) (acc : List OrderItem),
      (processItems oid its c acc).1.visible = c.visible := by
  intro its
  induction its with
  | nil => intro c acc; rfl
  | cons it rest ih =>
    intro c acc
    simp only [processItems]
    rcases hd : decrease_book_stock_on it.book_id it.quantity c with ⟨c1, r⟩
    have hv := decrease_on_visible it.book_id it.quantity c
    rw [hd] at hv
    cases r with
    | error e => simpa using hv
    | ok x =>
      simp only
      rw [ih]
      simpa using hv

theorem processItems_err (oid : Nat) :
    ∀ (its : List PendingItem) (c : Conn) (acc : List OrderItem) (c' : Conn) (e : AppError),
      processItems oid its c acc = (c', .error e) →
      e.isValidation = true ∨ e.isNotFound = true := by
  intro its
  induction its with
  | nil =>
    intro c acc c' e h
    exact absurd (congrArg (fun p => p.2) h) (by simp [processItems])
  | cons it rest ih =>
    intro c acc c' e h
    simp only [processItems] at h
    rcases hd : decrease_book_stock_on it.book_id it.quantity c with ⟨c1, r⟩
    rw [hd] at h
    cases r with
    | error e2 =>
      have he : e2 = e := by
        have := congrArg (fun p => p.2) h
        simpa using this
      subst he
      exact (decrease_on_err it.book_id it.quantity c c1 e2 hd).2
    | ok x => exact ih _ _ _ _ h

theorem processItems_ok_map (oid : Nat) :
    ∀ (its : List PendingItem) (c : Conn) (acc : List OrderItem)
      (c' : Conn) (out : List OrderItem),
      processItems oid its c acc = (c', .ok out) →
      out.map (fun o => (o.book_id, o.quantity, o.unit_price_at_purchase))
        = acc.map (fun o => (o.book_id, o.quantity, o.unit_price_at_purchase))
          ++ its.map (fun p => (p.book_id, p.quantity, p.unit_price_at_purchase)) := by
  intro its
  induction its with
  | nil =>
    intro c acc c' out h
    have hacc : acc = out := by
      have := congrArg (fun p => p.2) h
      simpa [processItems] using this
    subst hacc
    simp
  | cons it rest ih =>
    intro c acc c' out h
    simp only [processItems] at h
    rcases hd : decrease_book_stock_on it.book_id it.quantity c with ⟨c1, r⟩
    rw [hd] at h
    cases r with
    | error e => exact absurd (congrArg (fun p => p.2) h) (by simp)
    | ok x =>
      rw [ih _ _ _ _ h]
      simp

theorem prevalidateItems_spec (db : DB) :
    ∀ (es : List CartEntry) (acc : List PendingItem) (t : ℚ)
      (its : List PendingItem) (tot : ℚ),
      prevalidateItems db es acc t = .ok (its, tot) →
      ∃ new, its = acc ++ new ∧
        tot = t + (new.map fun p => p.unit_price_at_purchase * (p.quantity : ℚ)).sum ∧
        ∀ p ∈ new, ∃ bk, db.findBook p.book_id = some bk ∧
          p.unit_price_at_purchase = bk.price := by
  intro es
  induction es with
  | nil =>
    intro acc t its tot h
    have h2 : acc = its ∧ t = tot := by
      simpa [prevalidateItems, Prod.ext_iff] using h
    exact ⟨[], h2.1.symm ▸ by simp, h2.2.symm ▸ by simp, by simp⟩
  | cons e rest ih =>
    intro acc t its tot h
    simp only [prevalidateItems] at h
    split at h
    · next bid qty _ _ =>
      split at h
      · exact absurd h (by simp)
      · split at h
        · exact absurd h (by simp)
        · next book hf =>
          split at h
          · exact absurd h (by simp)
          · obtain ⟨new, h1, h2, h3⟩ := ih _ _ _ _ h
            refine ⟨⟨bid, qty, book.price, book.title⟩ :: new, ?_, ?_, ?_⟩
            · rw [h1]
              simp
            · rw [h2]
              simp only [List.map_cons, List.sum_cons]
              ring
            · intro p hp
              rcases List.mem_cons.mp hp with hp | hp
              · subst hp
                exact ⟨book, hf, rfl⟩
              · exact h3 p hp
    · exact absurd h (by simp)

theorem processItems_fst_err_visible (oid : Nat) (its : List PendingItem)
    (c : Conn) (acc : List OrderItem) (c' : Conn) (e : AppError)
    (h : processItems oid its c acc = (c', .error e)) : c'.visible = c.visible := by
  have hx := processItems_visible oid its c acc
  rw [h] at hx
  exact hx

theorem create_order_err_state (db : DB) (uid : Option Int) (cart : List CartEntry)
    (sd : ShippingDetails) (ge : Option String) (db' : DB) (evs : List DbEvent)
    (e : AppError)
    (h : create_order_from_cart db uid cart sd ge = (db', evs, .error e)) :
    db' = db := by
  unfold create_order_from_cart at h
  split at h
  · exact (congrArg (fun p => p.1) h).symm
  · split at h
    · exact (congrArg (fun p => p.1) h).symm
    · split at h
      · exact (congrArg (fun p => p.1) h).symm
      · split at h
        · exact (congrArg (fun p => p.1) h).symm
        · split at h <;>
          · dsimp only at h
            split at h
            · next c2 e2 hproc =>
              have hv := processItems_fst_err_visible _ _ _ _ _ _ hproc
              have h1 := congrArg
                (fun p => (p : DB × List DbEvent × Except AppError Order).1) h
              simp only [Conn.rollbackConn, Conn.closeConn] at h1
              exact h1.symm.trans (hv.trans rfl)
            · exact absurd (congrArg (fun p => p.2.2) h) (by simp)

/-- C1: if create_order raises any error at any point, then after the call
no Order row, no OrderItem row, and no stock decrement performed by that
call is persisted: the database state observable by a fresh read equals the
state before the call (all-or-nothing rollback). -/
theorem create_order_atomic_rollback (db : DB) (uid : Option Int)
    (cart : List CartEntry) (sd : ShippingDetails) (ge : Option String)
    (db' : DB) (evs : List DbEvent) (e : AppError)
    (h : create_order_from_cart db uid cart sd ge = (db', evs, .error e)) :
    db' = db :=
  create_order_err_state db uid cart sd ge db' evs e h

theorem create_order_atomic_rollback_witness :
    (create_order_from_cart exDB (some 1) dupCart exShipping none).1 = exDB := by
  have h : create_order_from_cart exDB (some 1) dupCart exShipping none
      = ((create_order_from_cart exDB (some 1) dupCart exShipping none).1,
         (create_order_from_cart exDB (some 1) dupCart exShipping none).2.1,
         .error (.validation "Not enough stock: insufficient stock for requested decrease.")) := by
    with_unfolding_all rfl
  exact create_order_atomic_rollback exDB (some 1) dupCart exShipping none _ _ _ h

/-- C3: for every order successfully returned by create_order,
order.total_amount equals the half-up cent rounding of the sum over its
items of quantity × unit_price_at_purchase, where each item's
unit_price_at_purchase is the book's price read at order time. -/
theorem order_total_amount_correct (db : DB) (uid : Option Int)
    (cart : List CartEntry) (sd : ShippingDetails) (ge : Option String)
    (db' : DB) (evs : List DbEvent) (o : Order)
    (h : create_order_from_cart db uid cart sd ge = (db', evs, .ok o)) :
    o.total_amount
      = quantizeCents ((o.items.map
          fun it => it.unit_price_at_purchase * (it.quantity : ℚ)).sum) ∧
    ∀ it ∈ o.items, ∃ bk, db.findBook it.book_id = some bk ∧
      it.unit_price_at_purchase = bk.price := by
  unfold create_order_from_cart at h
  split at h
  · exact absurd (congrArg (fun p => p.2.2) h) (by simp)
  · split at h
    · exact absurd (congrArg (fun p => p.2.2) h) (by simp)
    · split at h
      · exact absurd (congrArg (fun p => p.2.2) h) (by simp)
      · next items tot hpre =>
        split at h
        · exact absurd (congrArg (fun p => p.2.2) h) (by simp)
        · split at h <;>
          · dsimp only at h
            split at h
            · exact absurd (congrArg (fun p => p.2.2) h) (by simp)
            · next c2 out hproc =>
              have h22 := congrArg
                (fun p => (p : DB × List DbEvent × Except AppError Order).2.2) h
              simp only [Except.ok.injEq] at h22
              obtain ⟨new, hnew, htot, hbk⟩ := prevalidateItems_spec db cart [] 0 items tot hpre
              simp only [List.nil_append] at hnew
              rw [← hnew] at htot hbk
              simp only [zero_add] at htot
              have hmap := processItems_ok_map _ _ _ _ _ _ hproc
              simp only [List.map_nil, List.nil_append] at hmap
              have hsum : (out.map
                    fun oi => oi.unit_price_at_purchase * (oi.quantity : ℚ)).sum
                  = (items.map
                    fun p => p.unit_price_at_purchase * (p.quantity : ℚ)).sum := by
                have hc := congrArg
                  (fun l => (l.map fun x : Int × Int × ℚ => x.2.2 * (x.2.1 : ℚ)).sum) hmap
                simpa [List.map_map, Function.comp] using hc
              rw [← h22]
              constructor
              · dsimp only [Order.init]
                rw [quantizeCents_idem, hsum, ← htot]
              · intro it hit
                have h3 : (it.book_id, it.quantity, it.unit_price_at_purchase)
                    ∈ items.map fun p => (p.book_id, p.quantity, p.unit_price_at_purchase) := by
                  rw [← hmap]
                  exact List.mem_map_of_mem _ hit
                obtain ⟨p, hp, heq⟩ := List.mem_map.mp h3
                obtain ⟨bk, hbk1, hbk2⟩ := hbk p hp
                have e1 : p.book_id = it.book_id := by
                  have := congrArg (fun t => (t : Int × Int × ℚ).1) heq
                  simpa using this
                have e3 : p.unit_price_at_purchase = it.unit_price_at_purchase := by
                  have := congrArg (fun t => (t : Int × Int × ℚ).2.2) heq
                  simpa using this
                refine ⟨bk, ?_, ?_⟩
                · rw [← e1]
                  exact hbk1
                · rw [← e3]
                  exact hbk2

/-- C4 counterexample: with stock 5 and the cart holding keys "42" and
"042" (3 copies each), both lines pass pre-validation (3 ≤ 5) but the
Ledger's locked re-check fails on the second decrement — and the error
surfaced by create_order is the Ledger's Validation error re-raised
unchanged, not OrderProcessing, refuting the claim that a shortfall caught
by the locked re-check raises OrderProcessing.  Stock stays unchanged and
no Order row is created. -/
theorem stock_conflict_error_kind_counterexample :
    (create_order_from_cart exDB (some 1) dupCart exShipping none).2.2
      = .error (.validation "Not enough stock: insufficient stock for requested decrease.") ∧
    (AppError.validation
        "Not enough stock: insufficient stock for requested decrease.").isOrderProcessing
      = false ∧
    (create_order_from_cart exDB (some 1) dupCart exShipping none).1 = exDB :=
  ⟨by with_unfolding_all rfl, rfl, by with_unfolding_all rfl⟩

/-- C4 amended: whenever create_order fails because a cart line's quantity
exceeds the available stock, stock remains unchanged and no Order row is
created (any error leaves the visible database untouched); a shortfall
detected by the pre-validation pass surfaces as OrderProcessing, while a
shortfall detected by the Ledger's locked re-check during the transactional
phase surfaces as the Ledger's own error, re-raised unchanged — for
insufficient stock under lock that error is Validation (transactional-phase
failures are always Validation or NotFound, never OrderProcessing). -/
theorem stock_conflict_error_kinds :
    (∀ (db : DB) (uid : Option Int) (cart : List CartEntry) (sd : ShippingDetails)
       (ge : Option String) (db' : DB) (evs : List DbEvent) (e : AppError),
       create_order_from_cart db uid cart sd ge = (db', evs, .error e) → db' = db) ∧
    (∀ (db : DB) (uid : Option Int) (cart : List CartEntry) (sd : ShippingDetails)
       (ge : Option String) (m : String),
       cart.isEmpty = false → firstMissingShippingField sd = none →
       prevalidateItems db cart [] 0 = .error (.orderProcessing m) →
       (create_order_from_cart db uid cart sd ge).2.2 = .error (.orderProcessing m)) ∧
    (∀ (db : DB) (uid : Option Int) (cart : List CartEntry) (sd : ShippingDetails)
       (ge : Option String) (items : List PendingItem) (tot : ℚ) (e : AppError),
       cart.isEmpty = false → firstMissingShippingField sd = none →
       prevalidateItems db cart [] 0 = .ok (items, tot) → items.isEmpty = false →
       (create_order_from_cart db uid cart sd ge).2.2 = .error e →
       e.isValidation = true ∨ e.isNotFound = true) ∧
    (∀ (b q : Int) (c : Conn) (bk : Book),
       c.pending.findBook b = some bk → 0 < q → bk.stock_quantity < q →
       (decrease_book_stock_on b q c).2
         = .error (.validation "Not enough stock: insufficient stock for requested decrease.")) := by
  refine ⟨fun db uid cart sd ge db' evs e h =>
            create_order_err_state db uid cart sd ge db' evs e h, ?_, ?_, ?_⟩
  · intro db uid cart sd ge m h1 h2 h3
    simp [create_order_from_cart, h1, h2, h3]
  · intro db uid cart sd ge items tot e h1 h2 h3 h4 h5
    simp only [create_order_from_cart, h1, h2, h3, h4, Bool.false_eq_true, if_false] at h5
    split at h5
    · rename_i c2a e2 hproc
      have he : e2 = e := by simpa using h5
      subst he
      exact processItems_err _ _ _ _ _ _ hproc
    · simp at h5
  · intro b q c bk hf hq hgt
    simp only [decrease_book_stock_on]
    rw [if_neg (by omega), body_insufficient b q c bk hf hgt]

theorem stock_conflict_error_kinds_witness :
    (create_order_from_cart exDB (some 1) bigCart exShipping none).2.2
      = .error (.orderProcessing "Not enough stock. Please update your cart.") ∧
    ((AppError.validation
        "Not enough stock: insufficient stock for requested decrease.").isValidation = true ∨
     (AppError.validation
        "Not enough stock: insufficient stock for requested decrease.").isNotFound = true) ∧
    (decrease_book_stock_on 42 10 (Conn.fresh exDB)).2
      = .error (.validation "Not enough stock: insufficient stock for requested decrease.") := by
  refine ⟨?_, ?_, ?_⟩
  · exact stock_conflict_error_kinds.2.1 exDB (some 1) bigCart exShipping none
      "Not enough stock. Please update your cart." (by decide)
      (by with_unfolding_all decide) (by with_unfolding_all rfl)
  · exact stock_conflict_error_kinds.2.2.1 exDB (some 1) dupCart exShipping none
      [⟨42, 3, 25 / 2, "dune"⟩, ⟨42, 3, 25 / 2, "dune"⟩] 75 _ (by decide)
      (by with_unfolding_all decide) (by with_unfolding_all rfl) (by decide)
      (by with_unfolding_all rfl)
  · exact stock_conflict_error_kinds.2.2.2 42 10 (Conn.fresh exDB) exBook
      (by with_unfolding_all decide) (by decide) (by decide)

set_option maxRecDepth 8000 in
theorem order_total_amount_correct_witness :
    ∃ o : Order,
      create_order_from_cart exDB (some 1) okCart exShipping none
        = ((create_order_from_cart exDB (some 1) okCart exShipping none).1,
           (create_order_from_cart exDB (some 1) okCart exShipping none).2.1, .ok o) ∧
      (o.total_amount
        = quantizeCents ((o.items.map
            fun it => it.unit_price_at_purchase * (it.quantity : ℚ)).sum) ∧
       ∀ it ∈ o.items, ∃ bk, exDB.findBook it.book_id = some bk ∧
         it.unit_price_at_purchase = bk.price) := by
  have h : create_order_from_cart exDB (some 1) okCart exShipping none
      = ((create_order_from_cart exDB (some 1) okCart exShipping none).1,
         (create_order_from_cart exDB (some 1) okCart exShipping none).2.1,
         .ok ⟨1, some 1, none, 25, "Pending Payment",
              some "1 Main St", none, some "Springfield", some "IL", some "62701",
              [⟨1, 1, 42, 2, 25 / 2⟩]⟩) := by
    with_unfolding_all rfl
  exact ⟨_, h, order_total_amount_correct exDB (some 1) okCart exShipping none _ _ _ h⟩

/-- C6 counterexample: a call with no user_id and no guest email succeeds
(create_order does not validate the guest email at all) and produces an
Order whose user_id and guest_email are both null — refuting the claim
that exactly one of the two owner identities is set on every Order
produced by create_order. -/
theorem order_owner_exclusivity_counterexample :
    ((create_order_from_cart exDB none okCart exShipping none).2.2.toOption.map
       fun o => (o.user_id, o.guest_email)) = some (none, none) := by
  with_unfolding_all rfl

/-- C6 amended: an Order produced by create_order carries exactly the
caller's user_id, and its guest_email is null whenever the user_id is
truthy and otherwise equals the guest email argument as supplied — which
may be absent or syntactically invalid, since create_order itself enforces
no guest-email requirement (the route layer validates it before calling).
Mutual exclusivity therefore holds only in the user_id direction. -/
theorem order_owner_fields (db : DB) (uid : Option Int) (cart : List CartEntry)
    (sd : ShippingDetails) (ge : Option String) (db' : DB) (evs : List DbEvent)
    (o : Order)
    (h : create_order_from_cart db uid cart sd ge = (db', evs, .ok o)) :
    o.user_id = uid ∧ o.guest_email = (if pyTruthyInt uid then none else ge) := by
  unfold create_order_from_cart at h
  split at h
  · exact absurd (congrArg (fun p => p.2.2) h) (by simp)
  · split at h
    · exact absurd (congrArg (fun p => p.2.2) h) (by simp)
    · split at h
      · exact absurd (congrArg (fun p => p.2.2) h) (by simp)
      · next items tot hpre =>
        split at h
        · exact absurd (congrArg (fun p => p.2.2) h) (by simp)
        · split at h
          case isTrue htr =>
            dsimp only at h
            split at h
            · exact absurd (congrArg (fun p => p.2.2) h) (by simp)
            · next c2 out hproc =>
              have h22 := congrArg
                (fun p => (p : DB × List DbEvent × Except AppError Order).2.2) h
              simp only [Except.ok.injEq] at h22
              rw [← h22]
              dsimp only [Order.init]
              simp [htr]
          case isFalse hfl =>
            dsimp only at h
            split at h
            · exact absurd (congrArg (fun p => p.2.2) h) (by simp)
            · next c2 out hproc =>
              have h22 := congrArg
                (fun p => (p : DB × List DbEvent × Except AppError Order).2.2) h
              simp only [Except.ok.injEq] at h22
              rw [← h22]
              dsimp only [Order.init]
              simp [hfl]

set_option maxRecDepth 8000 in
theorem order_owner_fields_witness :
    ∃ o : Order,
      create_order_from_cart exDB (some 1) okCart exShipping (some "g@x.com")
        = ((create_order_from_cart exDB (some 1) okCart exShipping (some "g@x.com")).1,
           (create_order_from_cart exDB (some 1) okCart exShipping (some "g@x.com")).2.1,
           .ok o) ∧
      o.user_id = some 1 ∧
      o.guest_email = (if pyTruthyInt (some 1) then none else some "g@x.com") := by
  have h : create_order_from_cart exDB (some 1) okCart exShipping (some "g@x.com")
      = ((create_order_from_cart exDB (some 1) okCart exShipping (some "g@x.com")).1,
         (create_order_from_cart exDB (some 1) okCart exShipping (some "g@x.com")).2.1,
         .ok ⟨1, some 1, none, 25, "Pending Payment",
              some "1 Main St", none, some "Springfield", some "IL", some "62701",
              [⟨1, 1, 42, 2, 25 / 2⟩]⟩) := by
    with_unfolding_all rfl
  exact ⟨_, h, order_owner_fields exDB (some 1) okCart exShipping (some "g@x.com") _ _ _ h⟩

/-- C7 counterexample: the stored guest email is "a@b.com"; a requester
carrying " A@B.COM " is authorized by get_order, although the two emails
do not match case-insensitively (the code additionally strips surrounding
whitespace before comparing) — refuting the claim's authorization iff as
stated. -/
theorem get_order_auth_counterexample :
    (get_order_details orderDB 7 none (some " A@B.COM ")).isOk = true ∧
    (" A@B.COM ").toLower ≠ ("a@b.com").toLower := by
  constructor
  · with_unfolding_all rfl
  · with_unfolding_all decide

/-- C7 amended: get_order fails with NotFound whenever the order_id does
not exist, regardless of the requester's identity; when the order exists,
every failure is an Authorization error; a requester carrying a user_id is
authorized iff it equals the order's owning user_id; a requester carrying
only a guest_email is authorized iff the order has no owning user_id and
the emails match case-insensitively after stripping surrounding whitespace
(.strip().lower() on both sides); absence of any requester identity fails
with Authorization. -/
theorem get_order_auth_characterization (db : DB) (oid : Nat)
    (u : Option Int) (g : Option String) :
    (db.findOrder oid = none →
       get_order_details db oid u g = .error (.notFound "Order" (oid : Int))) ∧
    (∀ row, db.findOrder oid = some row →
       (∀ e, get_order_details db oid u g = .error e → e.isAuthorization = true) ∧
       (∀ uid, u = some uid →
          ((get_order_details db oid u g).isOk = true ↔ row.user_id = some uid)) ∧
       (u = none → ∀ ge, g = some ge →
          ((get_order_details db oid u g).isOk = true
            ↔ (row.user_id = none ∧
               (row.guest_email.getD "").trim.toLower = ge.trim.toLower))) ∧
       (u = none → g = none →
          get_order_details db oid u g
            = .error (.authorization "Authentication details required to view this order."))) := by
  constructor
  · intro hf
    simp [get_order_details, hf]
  · intro row hf
    refine ⟨?_, ?_, ?_, ?_⟩
    · intro e he
      rcases u with _ | uid
      · rcases g with _ | ge
        · simp only [get_order_details, hf, Except.error.injEq] at he
          rw [← he]
          rfl
        · simp only [get_order_details, hf] at he
          by_cases hcond : row.user_id ≠ none ∨
              (row.guest_email.getD "").trim.toLower ≠ ge.trim.toLower
          · rw [if_pos hcond] at he
            simp only [Except.error.injEq] at he
            rw [← he]
            rfl
          · rw [if_neg hcond] at he
            simp at he
      · simp only [get_order_details, hf] at he
        by_cases hcond : row.user_id ≠ some uid
        · rw [if_pos hcond] at he
          simp only [Except.error.injEq] at he
          rw [← he]
          rfl
        · rw [if_neg hcond] at he
          simp at he
    · intro uid hu
      subst hu
      simp only [get_order_details, hf]
      by_cases hcond : row.user_id ≠ some uid
      · rw [if_pos hcond]
        simp [Except.isOk, Except.toBool, hcond]
      · rw [if_neg hcond]
        simp [Except.isOk, Except.toBool, not_not.mp hcond]
    · intro hu ge hg
      subst hu
      subst hg
      simp only [get_order_details, hf]
      by_cases hcond : row.user_id ≠ none ∨
          (row.guest_email.getD "").trim.toLower ≠ ge.trim.toLower
      · rw [if_pos hcond]
        simp only [Except.isOk, Except.toBool, Bool.false_eq_true, false_iff]
        rintro ⟨ha, hb⟩
        rcases hcond with hc | hc
        · exact hc ha
        · exact hc hb
      · rw [if_neg hcond]
        push_neg at hcond
        simp [Except.isOk, Except.toBool, hcond.1, hcond.2]
    · intro hu hg
      subst hu
      subst hg
      simp [get_order_details, hf]

theorem get_order_auth_characterization_witness :
    get_order_details orderDB 9 none (some "a@b.com")
      = .error (.notFound "Order" (9 : Int)) ∧
    ((get_order_details orderDB 7 (some 3) none).isOk = true
      ↔ guestOrderRow.user_id = some 3) ∧
    ((get_order_details orderDB 7 none (some "a@b.com")).isOk = true
      ↔ (guestOrderRow.user_id = none ∧
         (guestOrderRow.guest_email.getD "").trim.toLower = ("a@b.com").trim.toLower)) ∧
    get_order_details orderDB 7 none none
      = .error (.authorization "Authentication details required to view this order.") := by
  refine ⟨?_, ?_, ?_, ?_⟩
  · exact (get_order_auth_characterization orderDB 9 none (some "a@b.com")).1
      (by with_unfolding_all rfl)
  · exact ((get_order_auth_characterization orderDB 7 (some 3) none).2 guestOrderRow
      (by with_unfolding_all rfl)).2.1 3 rfl
  · exact (((get_order_auth_characterization orderDB 7 none (some "a@b.com")).2 guestOrderRow
      (by with_unfolding_all rfl)).2.2.1 rfl "a@b.com" rfl)
  · exact (((get_order_auth_characterization orderDB 7 none none).2 guestOrderRow
      (by with_unfolding_all rfl)).2.2.2 rfl rfl)
